import Mathlib

/-!
Verification of the contract-analysis pipeline in
`mvp_completo_analise_propostas_ia.py` (Analisador Contratual Avançado v2.0.1).

The Python source is shallowly embedded: strings are Lean `String`s whose
`data` field models the Python `str` as a list of code points (Python indexes
and slices `str` by code point, exactly as `List Char` does), external
capabilities (pypdf / docx2txt text extraction, the OpenAI and Gemini network
clients) are explicit data passed in, and Python exceptions are modelled by
`Except` / `Option` results.
-/

set_option autoImplicit false

namespace Propostas

/-- Python whitespace characters stripped by `str.strip()` (ASCII range). -/
def pySpace (c : Char) : Bool :=
  c == ' ' || c == '\t' || c == '\n' || c == '\r' || c == '\x0b' || c == '\x0c'

/-- Python `s.strip()`: remove leading and trailing whitespace. -/
def pyStrip (s : String) : String :=
  ⟨((s.data.dropWhile pySpace).reverse.dropWhile pySpace).reverse⟩

/-- Python `s.isdigit()`: non-empty and all digit characters. -/
def pyIsDigit (s : String) : Bool :=
  !s.data.isEmpty && s.data.all Char.isDigit

/-- Python `s.lower()`. -/
def pyLower (s : String) : String :=
  ⟨s.data.map Char.toLower⟩

/-- Python `s.startswith(pat)`. -/
def pyStartsWith (s pat : String) : Bool :=
  pat.data.isPrefixOf s.data

/-- Python `s.endswith(pat)` (case-sensitive, as in Python). -/
def pyEndsWith (s pat : String) : Bool :=
  pat.data.isSuffixOf s.data

/-- Python `s.split(chr(10))`: split on newline, keeping empty pieces. -/
def splitNl (s : String) : List String :=
  (s.data.splitOn '\n').map String.mk

/-- Python `(chr(10)).join(parts)`. -/
def joinNl (parts : List String) : String :=
  ⟨List.intercalate ['\n'] (parts.map String.data)⟩

/-- Python prefix slice `s[:n]` — the Budget Allocator's `bound` operation
(used at the end of both branches of `ler_arquivo` and on both texts spliced
into the prompt in `analisar_contrato`). -/
def bound (s : String) (n : Nat) : String :=
  ⟨s.data.take n⟩

/-- Python slice `s[a:b]` for non-negative indices. -/
def pySlice (s : String) (a b : Nat) : String :=
  ⟨(s.data.drop a).take (b - a)⟩

/-- Index of the first occurrence of `pat` in a list, Python `str.find` on
code-point lists (`none` models Python's `-1`). -/
def findSub (pat : List Char) : List Char → Option Nat
  | [] => if pat.isPrefixOf ([] : List Char) then some 0 else none
  | c :: t =>
    if pat.isPrefixOf (c :: t) then some 0
    else (findSub pat t).map (· + 1)

/-- Python `s.find(pat)`. -/
def pyFind (s pat : String) : Option Nat :=
  findSub pat.data s.data

/-- Python `s.find(pat, start)`: search in `s[start:]`, absolute index. -/
def pyFindFrom (s pat : String) (start : Nat) : Option Nat :=
  (findSub pat.data (s.data.drop start)).map (· + start)

/-- Python `pat in s` (substring containment). -/
def pyContains (s pat : String) : Bool :=
  (pyFind s pat).isSome

/-- Tail of a valid Python integer-literal digit sequence, after a leading
digit has been consumed: digits with single grouping underscores between
digits. -/
def validTail : List Char → Bool
  | [] => true
  | c :: rest =>
    if c == '_' then
      match rest with
      | [] => false
      | d :: rest2 => d.isDigit && validTail rest2
    else
      c.isDigit && validTail rest

/-- Valid digit sequence for Python `int(...)`: a leading digit followed by a
valid tail. -/
def validDigitos (l : List Char) : Bool :=
  match l with
  | [] => false
  | c :: rest => c.isDigit && validTail rest

/-- Numeric value of a digit sequence, ignoring grouping underscores. -/
def valorDigitos (l : List Char) : Nat :=
  l.foldl (fun a c => if c == '_' then a else a * 10 + (c.toNat - 48)) 0

/-- Python `int(s)` on a `str`: strips whitespace, accepts an optional sign
and ASCII digits with grouping underscores; `none` models the `ValueError`
raised on anything else. -/
def parseInt (s : String) : Option Int :=
  match (pyStrip s).data with
  | '+' :: rest => if validDigitos rest then some ((valorDigitos rest : Nat) : Int) else none
  | '-' :: rest => if validDigitos rest then some (-((valorDigitos rest : Nat) : Int)) else none
  | l => if validDigitos l then some ((valorDigitos l : Nat) : Int) else none

/-! Configuration constants from the top of the source file. -/

def MAX_FILE_SIZE_MB : Nat := 25
def TIMEOUT_API : Nat := 300
def MAX_TOKENS : Nat := 30000

/-- An uploaded document as `ler_arquivo` sees it: the streamlit
`UploadedFile` exposes `name` and `size` (its byte length); the text that the
external extractors would produce from its bytes is carried explicitly, since
pypdf and docx2txt are external capabilities.  `pdfPages` is the per-page
result of `page.extract_text() or ""` (a page whose extraction fails
contributes `""`), `docxText` is the result of `docx2txt.process`. -/
structure UploadedFile where
  name : String
  size : Nat
  pdfPages : List String
  docxText : String
deriving DecidableEq, Repr

/-- The line filter shared by both branches of `ler_arquivo`: split on
newlines, drop lines that are pure page numbers (`line.strip().isdigit()`) or
confidentiality banners (lowercased line starting with the banner word),
and re-join with newlines. -/
def filtrarLinhas (t : String) : String :=
  joinNl ((splitNl t).filter fun line =>
    !pyIsDigit (pyStrip line) && !pyStartsWith (pyLower line) "confidential")

/-- Body of `ler_arquivo` before the blanket `except` clause: size check,
then suffix dispatch; the PDF branch takes at most 50 pages, filters each
page's lines, joins pages with newlines and truncates to `MAX_TOKENS`; the
DOCX branch filters the single extracted text.  Errors are the `ValueError`
messages raised in the source. -/
def lerCorpo (file : UploadedFile) : Except String String :=
  if file.size > MAX_FILE_SIZE_MB * 1024 * 1024 then
    .error "Arquivo muito grande (limite: 25MB)"
  else if pyEndsWith file.name ".pdf" then
    .ok (bound (joinNl ((file.pdfPages.take 50).map filtrarLinhas)) MAX_TOKENS)
  else if pyEndsWith file.name ".docx" then
    .ok (bound (filtrarLinhas file.docxText) MAX_TOKENS)
  else
    .error "Formato inválido (use PDF ou DOCX)"

/-- `ler_arquivo`: the `except` clause re-wraps any raised error as
`ValueError(f"Erro ao ler {file.name}: {str(e)}")`. -/
def ler_arquivo (file : UploadedFile) : Except String String :=
  match lerCorpo file with
  | .ok t => .ok t
  | .error e => .error ("Erro ao ler " ++ file.name ++ ": " ++ e)

/-- The `metricas` dictionary built by `extrair_metricas`: `Conformidade`
and `Pontos Criticos` are Python ints, `Recomendacao` a string. -/
structure Metricas where
  Conformidade : Int
  PontosCriticos : Int
  Recomendacao : String
deriving DecidableEq, Repr

/-- The label phrase searched for by `extrair_metricas`. -/
def labelConformidade : String := "Conformidade geral:"

/-- `analise.count` applied to the red-circle marker: the marker is a single
code point, so Python's non-overlapping substring count is the number of
occurrences of that character. -/
def contaCriticos (analise : String) : Int :=
  (analise.data.count '🔴' : Nat)

/-- The recommendation loop of `extrair_metricas`: first matching keyword of
`Aprovar`, `Reprovar`, `Revisar` wins; otherwise the initial `Indefinido`. -/
def recomendacaoDe (analise : String) : String :=
  if pyContains analise "Aprovar" then "Aprovar"
  else if pyContains analise "Reprovar" then "Reprovar"
  else if pyContains analise "Revisar" then "Revisar"
  else "Indefinido"

/-- The conformance block of `extrair_metricas`: if the label occurs, look
for the next percent sign after it; if found, `int(analise[start:end].strip())`
— whose `ValueError` (modelled by `parseInt` returning `none`) is what the
bare `except` of the source catches.  In every other path the initial value
`0` survives. -/
def conformidadeDe (analise : String) : Option Int :=
  if pyContains analise labelConformidade then
    match pyFind analise labelConformidade with
    | some idx =>
      let start := idx + labelConformidade.length
      match pyFindFrom analise "%" start with
      | some fim => parseInt (pyStrip (pySlice analise start fim))
      | none => some 0
    | none => some 0
  else some 0

/-- `extrair_metricas`: builds the metrics dictionary; the surrounding
`try/except` turns the only possible exception (the `int(...)` parse) into a
`None` result. -/
def extrair_metricas (analise : String) : Option Metricas :=
  match conformidadeDe analise with
  | none => none
  | some c => some ⟨c, contaCriticos analise, recomendacaoDe analise⟩

/-- The two generative services tried by `analisar_contrato`, in source
order. -/
inductive ProviderId where
  | openai
  | gemini
deriving DecidableEq, Repr

/-- Outcome of one external model call: the returned analysis text, or the
message of the exception the client raised (rate limits, auth errors,
timeouts and malformed responses all surface as exceptions caught by the
source's bare except blocks). -/
inductive ApiOutcome where
  | ok (text : String)
  | apiError (msg : String)
deriving DecidableEq, Repr

/-- A call issued to an external service: which provider, which model
variant, and the prompt sent. -/
structure Call where
  provider : ProviderId
  model : String
  prompt : String
deriving DecidableEq, Repr

/-- The `services` dictionary built by `init_services`: a provider is absent
when its key was missing or its connection test failed.  A present provider
is scripted: the outcome of its `k`-th call overall.  The script is the mock
of the external network. -/
structure Services where
  openai : Option (Nat → ApiOutcome)
  gemini : Option (Nat → ApiOutcome)

/-- Text before the spliced baseline in the prompt f-string. -/
def promptParte1 : String :=
  "\n    [ANÁLISE CONTRATUAL DETALHADA]\n    \n    ### CONTEXTO:\n    Você é um especialista em análise contratual com 20 anos de experiência. Compare o contrato base com a proposta comercial, identificando:\n    \n    ### DADOS DE ENTRADA:\n    - CONTRATO BASE (VALE): "

/-- Text between the spliced baseline and the candidate name. -/
def promptParte2 : String := "\n    - PROPOSTA ("

/-- Text between the candidate name and the spliced candidate text. -/
def promptParte3 : String := "): "

/-- Text after the spliced candidate text. -/
def promptParte4 : String :=
  "\n    \n    ### FORMATO DE SAÍDA:\n    \n    1. RESUMO EXECUTIVO\n    - Conformidade geral (0-100%)\n    - Principais pontos de atenção\n    - Recomendação (Aprovar/Reprovar/Revisar)\n    \n    2. ANÁLISE POR CLÁUSULA\n    - Tabela comparativa com:\n      * Cláusula\n      * Status (Conforme/Divergente/Não mencionado)\n      * Impacto (Alto/Médio/Baixo)\n      * Comentários\n    \n    3. ITENS CRÍTICOS\n    - Lista dos 5 itens mais críticos com explicação\n    \n    4. RECOMENDAÇÕES\n    - Ações específicas para alinhamento\n    \n    ### REGRAS:\n    - Seja objetivo e técnico\n    - Priorize cláusulas financeiras e de responsabilidade\n    - Destaque prazos e penalidades divergentes\n    "

/-- The prompt f-string of `analisar_contrato`: both document texts are
spliced through the `MAX_TOKENS` prefix slice, the candidate name verbatim. -/
def promptAnalise (contrato_base proposta nome_proposta : String) : String :=
  promptParte1 ++ bound contrato_base MAX_TOKENS ++ promptParte2 ++
    nome_proposta ++ promptParte3 ++ bound proposta MAX_TOKENS ++ promptParte4

/-- `analisar_contrato`: build the prompt, then try OpenAI (model
gpt-4-turbo) if configured — any exception falls through — then Gemini
(model gemini-1.5-pro) if configured; if neither produced text, return
`None`.  Besides the Python return value the embedding records the trace of
external calls issued, and threads the per-provider call counters `ko`, `kg`
so that scripted mocks can vary across calls. -/
def analisar_contrato (services : Services) (ko kg : Nat)
    (contrato_base proposta nome_proposta : String) :
    (Option String × List Call) × Nat × Nat :=
  let prompt := promptAnalise contrato_base proposta nome_proposta
  match services.openai with
  | some resp =>
    let c1 : Call := ⟨.openai, "gpt-4-turbo", prompt⟩
    match resp ko with
    | .ok text => ((some text, [c1]), ko + 1, kg)
    | .apiError _ =>
      match services.gemini with
      | some respG =>
        let c2 : Call := ⟨.gemini, "gemini-1.5-pro", prompt⟩
        match respG kg with
        | .ok t => ((some t, [c1, c2]), ko + 1, kg + 1)
        | .apiError _ => ((none, [c1, c2]), ko + 1, kg + 1)
      | none => ((none, [c1]), ko + 1, kg)
  | none =>
    match services.gemini with
    | some respG =>
      let c2 : Call := ⟨.gemini, "gemini-1.5-pro", prompt⟩
      match respG kg with
      | .ok t => ((some t, [c2]), ko, kg + 1)
      | .apiError _ => ((none, [c2]), ko, kg + 1)
    | none => ((none, []), ko, kg)

/-- What the `main` loop records for one proposta: the caught exception
message, the analysis-returned-None failure, or success with the (possibly
absent) extracted metrics. -/
inductive Resultado where
  | excecao (nome msg : String)
  | analiseFalhou (nome : String)
  | sucesso (nome : String) (metricas : Option Metricas)
deriving DecidableEq, Repr

/-- The proposta a recorded outcome belongs to. -/
def nomeDe : Resultado → String
  | .excecao n _ => n
  | .analiseFalhou n => n
  | .sucesso n _ => n

/-- The failure message `main` shows for a failed proposta (the text of the
corresponding st.error call), if the outcome is a failure. -/
def mensagemErro : Resultado → Option String
  | .excecao n e => some ("Falha na proposta " ++ n ++ ": " ++ e)
  | .analiseFalhou n => some ("Falha na análise de " ++ n)
  | .sucesso _ _ => none

/-- The per-proposta loop of `main`: read the file (a raised error is caught
by the inner except and the loop continues), analyse (a `None` analysis is
reported and skipped), otherwise record the extracted metrics.  PDF report
generation is an external capability with no bearing on the recorded
outcomes.  The provider call counters are threaded left to right, matching
the chronological order of external calls. -/
def loopPropostas (services : Services) (texto_base : String) :
    List UploadedFile → Nat → Nat → List Resultado
  | [], _, _ => []
  | p :: rest, ko, kg =>
    match ler_arquivo p with
    | .error e => .excecao p.name e :: loopPropostas services texto_base rest ko kg
    | .ok texto =>
      match analisar_contrato services ko kg texto_base texto p.name with
      | ((none, _), ko2, kg2) =>
        .analiseFalhou p.name :: loopPropostas services texto_base rest ko2 kg2
      | ((some analise, _), ko2, kg2) =>
        .sucesso p.name (extrair_metricas analise) ::
          loopPropostas services texto_base rest ko2 kg2

/-- The `resultados` list of `main`: names of propostas that completed. -/
def resultadosDe (l : List Resultado) : List String :=
  l.filterMap fun r =>
    match r with
    | .sucesso n _ => some n
    | _ => none

/-- The `metricas_gerais` list of `main`: extracted metrics, tagged with the
proposta name, for propostas whose extraction returned a dictionary. -/
def metricasGeraisDe (l : List Resultado) : List (Metricas × String) :=
  l.filterMap fun r =>
    match r with
    | .sucesso n (some m) => some (m, n)
    | _ => none

/-- C8: for every text and budget, `bound text N` has length at most `N`,
is a prefix of the text, is the longest prefix of length at most `N` (every
such prefix is a prefix of it), bounding is idempotent, and re-bounding with
the same or a larger budget returns the text unchanged. -/
theorem bound_especificacao (t : String) (n m : Nat) (h : n ≤ m) :
    (bound t n).length ≤ n
    ∧ (∃ s, (bound t n).data ++ s = t.data)
    ∧ (∀ p : List Char, (∃ s, p ++ s = t.data) → p.length ≤ n →
        ∃ s, p ++ s = (bound t n).data)
    ∧ bound (bound t n) n = bound t n
    ∧ bound (bound t n) m = bound t n := by
  refine ⟨?_, ?_, ?_, ?_, ?_⟩
  · show (t.data.take n).length ≤ n
    simp only [List.length_take]
    omega
  · exact ⟨t.data.drop n, List.take_append_drop n t.data⟩
  · rintro p ⟨s, hs⟩ hp
    refine ⟨s.take (n - p.length), ?_⟩
    show p ++ s.take (n - p.length) = t.data.take n
    rw [← hs, List.take_append_eq_append_take, List.take_of_length_le hp]
  · show (⟨(t.data.take n).take n⟩ : String) = ⟨t.data.take n⟩
    exact congrArg String.mk (by rw [List.take_take, Nat.min_self])
  · show (⟨(t.data.take n).take m⟩ : String) = ⟨t.data.take n⟩
    exact congrArg String.mk (by rw [List.take_take, Nat.min_eq_right h])

/-- C8 witness: the specification evaluated at a concrete text and budgets. -/
theorem bound_especificacao_witness :
    (bound "abcde" 3).length ≤ 3
    ∧ (∃ s, (bound "abcde" 3).data ++ s = "abcde".data)
    ∧ (∀ p : List Char, (∃ s, p ++ s = "abcde".data) → p.length ≤ 3 →
        ∃ s, p ++ s = (bound "abcde" 3).data)
    ∧ bound (bound "abcde" 3) 3 = bound "abcde" 3
    ∧ bound (bound "abcde" 3) 4 = bound "abcde" 3 :=
  bound_especificacao "abcde" 3 4 (by decide)

/-- C10 counterexample: a file whose name ends in uppercase ".PDF" and whose
size is one byte over the limit fails with the size-limit error, not the
unsupported-format error, so the unsupported-format outcome does not hold for
every over-limit file with an unrecognised suffix. -/
theorem formato_maiusculo_grande_counterexample :
    pyEndsWith "doc.PDF" ".pdf" = false
    ∧ pyEndsWith "doc.PDF" ".docx" = false
    ∧ ler_arquivo ⟨"doc.PDF", 26214401, [], ""⟩ =
        .error ("Erro ao ler " ++ "doc.PDF" ++ ": " ++ "Arquivo muito grande (limite: 25MB)") :=
  ⟨rfl, rfl, rfl⟩

/-- C10 amended: for every file within the size limit whose name does not
end in exactly the lowercase ".pdf" or ".docx" — case-sensitively, so a name
ending in ".PDF" qualifies — reading fails with the unsupported-format error
regardless of the file's extracted content; an over-limit file instead fails
with the size-limit error first. -/
theorem ler_arquivo_formato_invalido (f : UploadedFile)
    (hsize : f.size ≤ MAX_FILE_SIZE_MB * 1024 * 1024)
    (hpdf : pyEndsWith f.name ".pdf" = false)
    (hdocx : pyEndsWith f.name ".docx" = false) :
    ler_arquivo f =
      .error ("Erro ao ler " ++ f.name ++ ": " ++ "Formato inválido (use PDF ou DOCX)") := by
  have h1 : ¬ f.size > MAX_FILE_SIZE_MB * 1024 * 1024 := Nat.not_lt.mpr hsize
  unfold ler_arquivo lerCorpo
  rw [if_neg h1]
  rw [if_neg (by simp [hpdf]), if_neg (by simp [hdocx])]

/-- C10 amended witness: a within-limit file named with an uppercase ".PDF"
suffix fails with the wrapped unsupported-format error. -/
theorem ler_arquivo_formato_invalido_witness :
    ler_arquivo ⟨"doc.PDF", 100, ["conteudo"], "conteudo"⟩ =
      .error ("Erro ao ler " ++ "doc.PDF" ++ ": " ++ "Formato inválido (use PDF ou DOCX)") :=
  ler_arquivo_formato_invalido ⟨"doc.PDF", 100, ["conteudo"], "conteudo"⟩
    (by decide) (by decide) (by decide)

/-- C6 counterexample: a supported within-limit PDF whose single page
extracts to the empty string is read successfully as blank text — there is
no EmptyDocument failure in the code. -/
theorem documento_vazio_counterexample :
    ler_arquivo ⟨"vazio.pdf", 10, [""], ""⟩ = .ok "" ∧ pyStrip "" = "" :=
  ⟨rfl, rfl⟩

/-- C6 amended: for every blob of a supported kind within the size limit,
reading succeeds, even when the extracted text is blank after trimming; the
code has no EmptyDocument error and returns the blank text instead. -/
theorem ler_arquivo_aceita_vazio (f : UploadedFile)
    (hsize : f.size ≤ MAX_FILE_SIZE_MB * 1024 * 1024)
    (hext : pyEndsWith f.name ".pdf" = true ∨ pyEndsWith f.name ".docx" = true) :
    ∃ t, ler_arquivo f = .ok t := by
  have h1 : ¬ f.size > MAX_FILE_SIZE_MB * 1024 * 1024 := Nat.not_lt.mpr hsize
  unfold ler_arquivo lerCorpo
  rw [if_neg h1]
  by_cases hp : pyEndsWith f.name ".pdf" = true
  · rw [if_pos hp]
    exact ⟨_, rfl⟩
  · have hd : pyEndsWith f.name ".docx" = true := by
      rcases hext with hh | hh
      · exact absurd hh hp
      · exact hh
    rw [if_neg hp, if_pos hd]
    exact ⟨_, rfl⟩

/-- C6 amended witness: the blank single-page PDF is read successfully. -/
theorem ler_arquivo_aceita_vazio_witness :
    ∃ t, ler_arquivo ⟨"vazio2.pdf", 10, [""], ""⟩ = .ok t :=
  ler_arquivo_aceita_vazio ⟨"vazio2.pdf", 10, [""], ""⟩ (by decide) (Or.inl (by decide))

/-- C3 counterexample: on adversarial text containing the conformance label
followed by a percent sign with no number in between, the extractor returns
the absent result `none` — the bare except catches the int-parse error and
returns Python `None` — rather than an all-unknown record. -/
theorem extrair_sem_numero_counterexample :
    extrair_metricas "Conformidade geral: %" = none := rfl

/-- C3 amended: extraction never raises, and on any text that does not
contain the conformance label — including the empty string and text with no
recognizable sections — it returns the default record (conformance 0, the
marker count, the scanned recommendation); an absent result occurs only when
the label is present and the slice before the following percent sign fails
to parse as an integer. -/
theorem extrair_metricas_sem_label (s : String)
    (h : pyContains s labelConformidade = false) :
    extrair_metricas s = some ⟨0, contaCriticos s, recomendacaoDe s⟩ := by
  unfold extrair_metricas conformidadeDe
  rw [h]
  simp

/-- C3 amended witness: text with no recognizable sections gets the default
record, and so does the empty string. -/
theorem extrair_metricas_sem_label_witness :
    extrair_metricas "texto sem secoes" =
      some ⟨0, contaCriticos "texto sem secoes", recomendacaoDe "texto sem secoes"⟩ :=
  extrair_metricas_sem_label "texto sem secoes" rfl

/-- C4 counterexample: on the English analysis text of the claim the
extractor finds neither the Portuguese label "Conformidade geral:" nor the
keyword "Revisar", so it returns conformance 0 and recommendation
"Indefinido" — not conformance 62 and recommendation Revise. -/
theorem extrair_ingles_counterexample :
    extrair_metricas "Overall conformance: 62%. 🔴 Late delivery risk. Recommendation: Revise." =
      some ⟨0, 1, "Indefinido"⟩ := rfl

/-- C4 amended: for the analysis text phrased with the code's configured
Portuguese label and keyword — "Conformidade geral: 62%. 🔴 Risco de atraso
na entrega. Recomendação: Revisar." — the extractor returns conformance 62,
one critical item and recommendation Revisar. -/
theorem extrair_portugues :
    extrair_metricas
        "Conformidade geral: 62%. 🔴 Risco de atraso na entrega. Recomendação: Revisar." =
      some ⟨62, 1, "Revisar"⟩ := rfl

/-- C9 counterexample: the conformance percentage is not clamped to 0–100
and there is no "unknown" value: text claiming 150% yields a record with
conformance 150. -/
theorem extrair_conformidade_150_counterexample :
    extrair_metricas "Conformidade geral: 150%" = some ⟨150, 0, "Indefinido"⟩
    ∧ ¬ ((150 : Int) ≤ 100) :=
  ⟨rfl, by decide⟩

/-- C9 amended: every record the extractor returns has a non-negative
critical-item count and a recommendation among Aprovar, Reprovar, Revisar
and Indefinido; the conformance field, however, is whatever integer parsed
after the label (0 standing in for unknown), with no 0–100 range guarantee. -/
theorem extrair_metricas_invariante (s : String) (m : Metricas)
    (h : extrair_metricas s = some m) :
    0 ≤ m.PontosCriticos
    ∧ (m.Recomendacao = "Aprovar" ∨ m.Recomendacao = "Reprovar"
       ∨ m.Recomendacao = "Revisar" ∨ m.Recomendacao = "Indefinido") := by
  unfold extrair_metricas at h
  cases hc : conformidadeDe s with
  | none => rw [hc] at h; cases h
  | some c =>
    rw [hc] at h
    cases h
    constructor
    · show (0 : Int) ≤ contaCriticos s
      unfold contaCriticos
      exact Int.natCast_nonneg _
    · show recomendacaoDe s = "Aprovar" ∨ recomendacaoDe s = "Reprovar"
        ∨ recomendacaoDe s = "Revisar" ∨ recomendacaoDe s = "Indefinido"
      unfold recomendacaoDe
      split_ifs <;> simp

/-- C9 amended witness: the invariant evaluated on a record produced from
concrete text. -/
theorem extrair_metricas_invariante_witness :
    0 ≤ (⟨0, 0, "Indefinido"⟩ : Metricas).PontosCriticos
    ∧ ((⟨0, 0, "Indefinido"⟩ : Metricas).Recomendacao = "Aprovar"
       ∨ (⟨0, 0, "Indefinido"⟩ : Metricas).Recomendacao = "Reprovar"
       ∨ (⟨0, 0, "Indefinido"⟩ : Metricas).Recomendacao = "Revisar"
       ∨ (⟨0, 0, "Indefinido"⟩ : Metricas).Recomendacao = "Indefinido") :=
  extrair_metricas_invariante "sem nada" ⟨0, 0, "Indefinido"⟩ rfl

/-- C7 counterexample: with both the baseline text and the candidate text
empty, the analysis proceeds and succeeds — there is no InvalidInput
failure anywhere in the code path. -/
theorem entradas_vazias_counterexample :
    (analisar_contrato ⟨some fun _ => .ok "resposta", none⟩ 0 0 "" "" "X").1.1 =
      some "resposta" := rfl

/-- C7 amended: the prompt builder never fails — empty texts are embedded
as empty splices — and never drops an input: for all inputs the composed
prompt contains the bounded baseline text, the candidate name and the
bounded candidate text at their template positions. -/
theorem prompt_embute_entradas (b p n : String) :
    (∃ pre suf : List Char, (promptAnalise b p n).data = pre ++ (bound b MAX_TOKENS).data ++ suf)
    ∧ (∃ pre suf : List Char, (promptAnalise b p n).data = pre ++ n.data ++ suf)
    ∧ (∃ pre suf : List Char, (promptAnalise b p n).data = pre ++ (bound p MAX_TOKENS).data ++ suf) := by
  refine ⟨⟨promptParte1.data,
      (promptParte2 ++ n ++ promptParte3 ++ bound p MAX_TOKENS ++ promptParte4).data, ?_⟩,
    ⟨(promptParte1 ++ bound b MAX_TOKENS ++ promptParte2).data,
      (promptParte3 ++ bound p MAX_TOKENS ++ promptParte4).data, ?_⟩,
    ⟨(promptParte1 ++ bound b MAX_TOKENS ++ promptParte2 ++ n ++ promptParte3).data,
      promptParte4.data, ?_⟩⟩ <;>
  simp [promptAnalise, List.append_assoc]

/-- C1 counterexample: with OpenAI scripted to fail with a rate-limit error
and Gemini scripted to succeed, the orchestrator issues exactly one OpenAI
call (no retry of the same variant, no backoff, no cheaper variant of the
same provider) and immediately moves on to Gemini. -/
theorem orquestrador_sem_retry_counterexample :
    (analisar_contrato
        ⟨some fun _ => .apiError "Rate limit reached", some fun _ => .ok "analise"⟩
        0 0 "base" "proposta" "p.pdf").1.2 =
      [⟨.openai, "gpt-4-turbo", promptAnalise "base" "proposta" "p.pdf"⟩,
       ⟨.gemini, "gemini-1.5-pro", promptAnalise "base" "proposta" "p.pdf"⟩] := rfl

/-- C1 amended: provider order is a strict priority — each provider is
called at most once with its single fixed variant, OpenAI (gpt-4-turbo) is
always attempted first when configured, a successful OpenAI call means
Gemini is never contacted, and any Gemini call implies OpenAI was absent or
its one attempt raised; there is no retry, backoff or variant degradation. -/
theorem orquestrador_prioridade (sv : Services) (ko kg : Nat) (b p n : String) :
    ((analisar_contrato sv ko kg b p n).1.2.filter (fun c => c.provider == .openai)).length ≤ 1
    ∧ ((analisar_contrato sv ko kg b p n).1.2.filter (fun c => c.provider == .gemini)).length ≤ 1
    ∧ (∀ bo, sv.openai = some bo →
        (analisar_contrato sv ko kg b p n).1.2.head? =
          some ⟨.openai, "gpt-4-turbo", promptAnalise b p n⟩)
    ∧ (∀ bo t, sv.openai = some bo → bo ko = .ok t →
        (analisar_contrato sv ko kg b p n).1.1 = some t
        ∧ (analisar_contrato sv ko kg b p n).1.2 =
            [⟨.openai, "gpt-4-turbo", promptAnalise b p n⟩])
    ∧ (∀ c ∈ (analisar_contrato sv ko kg b p n).1.2, c.provider = .gemini →
        sv.openai = none ∨ ∃ bo e, sv.openai = some bo ∧ bo ko = .apiError e) := by
  rcases ho : sv.openai with _ | bo
  · rcases hg : sv.gemini with _ | bg
    · simp [analisar_contrato, ho, hg]
    · rcases hgo : bg kg with t | e <;> simp [analisar_contrato, ho, hg, hgo]
  · rcases hoo : bo ko with t | e
    · simp [analisar_contrato, ho, hoo]
      rintro bo1 t1 rfl h
      rw [hoo] at h
      cases h
      rfl
    · rcases hg : sv.gemini with _ | bg
      · simp [analisar_contrato, ho, hoo, hg]
        rintro bo1 t rfl h
        rw [hoo] at h
        cases h
      · rcases hgo : bg kg with t2 | e2
        · simp [analisar_contrato, ho, hoo, hg, hgo]
          rintro bo1 t rfl h
          rw [hoo] at h
          cases h
        · simp [analisar_contrato, ho, hoo, hg, hgo]
          rintro bo1 t rfl h
          rw [hoo] at h
          cases h

/-- C1 amended witness: with OpenAI scripted to succeed, the result is its
text and the trace is the single OpenAI call. -/
theorem orquestrador_prioridade_witness :
    (analisar_contrato ⟨some fun _ => .ok "resp", none⟩ 0 0 "b" "p" "n").1.1 = some "resp"
    ∧ (analisar_contrato ⟨some fun _ => .ok "resp", none⟩ 0 0 "b" "p" "n").1.2 =
        [⟨.openai, "gpt-4-turbo", promptAnalise "b" "p" "n"⟩] :=
  (orquestrador_prioridade ⟨some fun _ => .ok "resp", none⟩ 0 0 "b" "p" "n").2.2.2.1
    (fun _ => .ok "resp") "resp" rfl rfl

/-- C2 counterexample: when both configured providers raise, the analysis
returns the sentinel `None` — no AllProvidersExhausted exception and no
accumulated per-provider error list is produced. -/
theorem todos_provedores_falham_counterexample :
    (analisar_contrato
        ⟨some fun _ => .apiError "Unauthorized", some fun _ => .apiError "Unauthorized"⟩
        0 0 "base" "proposta" "p.pdf").1.1 = none := rfl

/-- C2 amended: if every configured provider's call raises, the analysis
returns `None` after calling both providers once, and the coordinator loop
records the per-candidate failure "Falha na análise de [name]" and continues
with the remaining candidates instead of aborting the run. -/
theorem todos_provedores_falham (sv : Services) (bo bg : Nat → ApiOutcome)
    (ho : sv.openai = some bo) (hg : sv.gemini = some bg)
    (ko kg : Nat) (eo eg : String)
    (h1 : bo ko = .apiError eo) (h2 : bg kg = .apiError eg)
    (texto_base : String) (f : UploadedFile) (rest : List UploadedFile) (texto : String)
    (hread : ler_arquivo f = .ok texto) :
    (analisar_contrato sv ko kg texto_base texto f.name).1.1 = none
    ∧ loopPropostas sv texto_base (f :: rest) ko kg =
        .analiseFalhou f.name :: loopPropostas sv texto_base rest (ko + 1) (kg + 1) := by
  have han : analisar_contrato sv ko kg texto_base texto f.name =
      ((none,
        [⟨.openai, "gpt-4-turbo", promptAnalise texto_base texto f.name⟩,
         ⟨.gemini, "gemini-1.5-pro", promptAnalise texto_base texto f.name⟩]),
       ko + 1, kg + 1) := by
    simp [analisar_contrato, ho, hg, h1, h2]
  constructor
  · rw [han]
  · simp only [loopPropostas, hread, han]

/-- C2 amended witness: a concrete run with both providers Unauthorized
records the candidate failure and terminates normally. -/
theorem todos_provedores_falham_witness :
    (analisar_contrato
        ⟨some fun _ => .apiError "Unauthorized", some fun _ => .apiError "Unauthorized"⟩
        0 0 "base" "texto" "p.pdf").1.1 = none
    ∧ loopPropostas
        ⟨some fun _ => .apiError "Unauthorized", some fun _ => .apiError "Unauthorized"⟩
        "base" [⟨"p.pdf", 10, ["texto"], ""⟩] 0 0 =
        [.analiseFalhou "p.pdf"] :=
  todos_provedores_falham
    ⟨some fun _ => .apiError "Unauthorized", some fun _ => .apiError "Unauthorized"⟩
    (fun _ => .apiError "Unauthorized") (fun _ => .apiError "Unauthorized") rfl rfl
    0 0 "Unauthorized" "Unauthorized" rfl rfl
    "base" ⟨"p.pdf", 10, ["texto"], ""⟩ [] "texto" rfl

/-- Helper for C5: every failure message the loop can record is non-empty
(it always begins with a fixed non-empty phrase). -/
theorem mensagemErro_pos (r : Resultado) (s : String) (h : mensagemErro r = some s) :
    0 < s.length := by
  cases r with
  | excecao nm e =>
    simp only [mensagemErro, Option.some.injEq] at h
    rw [← h]
    have hlit : 0 < ("Falha na proposta " : String).length := by decide
    simp only [String.length_append]
    omega
  | analiseFalhou nm =>
    simp only [mensagemErro, Option.some.injEq] at h
    rw [← h]
    have hlit : 0 < ("Falha na análise de " : String).length := by decide
    simp only [String.length_append]
    omega
  | sucesso nm m => simp [mensagemErro] at h

/-- C5 amended: the coordinator loop yields exactly one recorded outcome per
submitted candidate, in submission order (a failure of one candidate never
aborts the rest), and every recorded failure carries a non-empty reason;
however a candidate can succeed and still carry no metrics record, when the
extractor returned `None`. -/
theorem loop_ordem_isolamento (sv : Services) (tb : String)
    (props : List UploadedFile) (ko kg : Nat) :
    (loopPropostas sv tb props ko kg).map nomeDe = props.map UploadedFile.name
    ∧ ∀ r ∈ loopPropostas sv tb props ko kg, ∀ s, mensagemErro r = some s → 0 < s.length := by
  constructor
  · induction props generalizing ko kg with
    | nil => simp [loopPropostas]
    | cons f rest ih =>
      unfold loopPropostas
      cases hr : ler_arquivo f with
      | error e => simp [hr, nomeDe, ih]
      | ok texto =>
        rcases han : analisar_contrato sv ko kg tb texto f.name with ⟨⟨an, trc⟩, ko2, kg2⟩
        cases an <;> simp [hr, han, nomeDe, ih]
  · intro r _ s h
    exact mensagemErro_pos r s h

/-- C5 amended witness: a one-candidate run evaluated concretely, with the
failure message of its recorded outcome non-empty. -/
theorem loop_ordem_isolamento_witness :
    (loopPropostas ⟨none, none⟩ "b" [⟨"p.pdf", 1, [], ""⟩] 0 0).map nomeDe =
      [(⟨"p.pdf", 1, [], ""⟩ : UploadedFile)].map UploadedFile.name
    ∧ 0 < ("Falha na análise de " ++ "p.pdf").length :=
  ⟨(loop_ordem_isolamento ⟨none, none⟩ "b" [⟨"p.pdf", 1, [], ""⟩] 0 0).1,
   (loop_ordem_isolamento ⟨none, none⟩ "b" [⟨"p.pdf", 1, [], ""⟩] 0 0).2
     (.analiseFalhou "p.pdf") (by decide) ("Falha na análise de " ++ "p.pdf") rfl⟩

/-- C5 counterexample: a run where the first candidate fails and the second
succeeds — but the succeeding candidate carries no metrics record, because
its analysis text made the extractor return `None`; so "each succeeding
candidate carries a populated MetricsRecord" does not hold. -/
theorem sucesso_sem_metricas_counterexample :
    loopPropostas
      ⟨some fun k => if k == 0 then .apiError "falha" else .ok "Conformidade geral: %", none⟩
      "base" [⟨"p1.pdf", 10, ["um"], ""⟩, ⟨"p2.pdf", 10, ["dois"], ""⟩] 0 0 =
      [.analiseFalhou "p1.pdf", .sucesso "p2.pdf" none] := rfl

end Propostas

